import Mathlib

/-!
# Verification of the kors_async channel core

A shallow embedding of the channel dispatch core of the kors_async
repository, translated from src/async/internal/channelimpl.h (the current
version of ChannelImpl, the first one in the file), together with a small
model of the older ChannelImpl (the second version in the same file, still
wired from src/async/channel.h through disconnectReceiver/disableReceiver)
and of the Promise facade from src/async/promise.h.

Modelling conventions:
  * Pointers are natural-number identifiers.  Receiver records live in a
    heap (store), an association list from record id to record, because the
    C++ code shares Receiver pointers between the receivers, pendingToAdd
    and pendingToRemove vectors of a ThreadData.
  * Thread ids, subscriber (Asyncable) ids and callback identities are
    natural numbers.  A callback is identified by a tag; invoking it is
    recorded as an Event.  The effect a callback has on the channel when it
    runs (re-subscribing, disconnecting) is given by a program, a map from
    callback tag to a list of actions.
  * Release semantics: a failed C++ assert is a no-op at runtime; the
    assert conditions relevant to the claims are modelled as separate
    decidable predicates.
  * The tuple of send arguments is modelled by a single payload number,
    captured by value in a CallMsg exactly as the C++ thunk captures args.
-/

namespace KorsAsync

/-- Asyncable::Mode (declared in asyncable.h, which is not part of src/;
the two constructors and their meaning are taken from the spec and from the
usage sites in channelimpl.h). -/
inductive Mode where
  | SetOnce
  | AsyncSet
deriving DecidableEq, Repr

/-- SendMode from channelimpl.h. -/
inductive SendMode where
  | Auto
  | Queue
deriving DecidableEq, Repr

/-- ChannelImpl::Receiver: one record per (channel, subscriber) binding.
receiver = none models a null Asyncable pointer (anonymous subscriber). -/
structure Receiver where
  enabled : Bool := true
  receiver : Option Nat := none
  callback : Nat := 0
deriving DecidableEq, Repr

/-- A type-erased CallMsg as produced by the current ChannelImpl: either a
send thunk (capturing the payload by value, invoking the target record's
callback) or the self-disconnect thunk built in ChannelImpl::disconnect. -/
inductive CallMsg where
  | call (payload : Nat)
  | selfDisconnect (a : Nat)
deriving DecidableEq, Repr

/-- ChannelImpl::QueueData: the SPSC queue toward one receiver thread,
owned by the sending thread's slot.  Messages are kept in FIFO order. -/
structure QueueData where
  receiveTh : Nat
  msgs : List CallMsg := []
deriving DecidableEq, Repr

/-- ChannelImpl::ThreadData (current version): the per-thread subscriber
table.  The three vectors hold record ids into the channel's store. -/
structure ThreadData where
  threadId : Nat
  receivers : List Nat := []
  pendingToAdd : List Nat := []
  pendingToRemove : List Nat := []
  queues : List QueueData := []
deriving DecidableEq, Repr

/-- The state of one ChannelImpl.  connects is the union of the Asyncable
back-link tables restricted to this channel: the (subscriber,
registration-thread) pairs currently linked to it.  asyncable.h itself is
not under src/, so this part is modelled from the spec (section 4.3). -/
structure ChannelState where
  store : List (Nat × Receiver) := []
  nextId : Nat := 0
  threads : List ThreadData := []
  connects : List (Nat × Nat) := []
  enabledReceiversCount : Int := 0
deriving DecidableEq, Repr

/-- One observed callback invocation: which record fired, its subscriber,
its callback tag, and the payload it was invoked with. -/
structure Event where
  rid : Nat
  receiver : Option Nat
  callback : Nat
  payload : Nat
deriving DecidableEq, Repr

/-- Heap read: the Receiver a record id points at. -/
def lookupRec (st : ChannelState) (rid : Nat) : Option Receiver :=
  (st.store.find? (fun p => decide (p.1 = rid))).map Prod.snd

/-- Heap write: update the record at rid in place. -/
def updateRec (st : ChannelState) (rid : Nat) (g : Receiver → Receiver) : ChannelState :=
  { st with store := st.store.map (fun p => if p.1 = rid then (p.1, g p.2) else p) }

/-- Heap delete (the C++ delete r). -/
def delRec (st : ChannelState) (rid : Nat) : ChannelState :=
  { st with store := st.store.filter (fun p => decide (p.1 ≠ rid)) }

/-- Whether the channel already has a ThreadData slot for this thread. -/
def hasThread (st : ChannelState) (tid : Nat) : Bool :=
  st.threads.any (fun td => decide (td.threadId = tid))

/-- ChannelImpl::threadData, creation half: take a slot for tid if none
exists yet.  The fixed-size slot array and its mutex are irrelevant to the
claims (no claim exercises slot exhaustion), so slots are a growing list. -/
def ensureThread (st : ChannelState) (tid : Nat) : ChannelState :=
  if hasThread st tid then st
  else { st with threads := st.threads ++ [{ threadId := tid }] }

/-- ChannelImpl::threadData, lookup half. -/
def getThread (st : ChannelState) (tid : Nat) : ThreadData :=
  (st.threads.find? (fun td => decide (td.threadId = tid))).getD { threadId := tid }

/-- Replace the ThreadData slot for tid. -/
def setThread (st : ChannelState) (tid : Nat) (td : ThreadData) : ChannelState :=
  { st with threads := st.threads.map (fun x => if x.threadId = tid then td else x) }

/-- The predicate of ChannelImpl::ThreadData::findByAsyncable: a record id
matches when the record it points at has this subscriber pointer. -/
def recMatches (st : ChannelState) (a : Option Nat) (rid : Nat) : Bool :=
  match lookupRec st rid with
  | some r => decide (r.receiver = a)
  | none => false

/-- ChannelImpl::ThreadData::findByAsyncable. -/
def findByAsyncable (st : ChannelState) (ids : List Nat) (a : Option Nat) : Option Nat :=
  ids.find? (recMatches st a)

/-- Modelled from the spec (section 4.3): Asyncable::async_connect as
called from addReceiver records the back-link with the current thread as
registration thread; a live binding has exactly one entry per channel. -/
def asyncConnect (st : ChannelState) (a : Nat) (tid : Nat) : ChannelState :=
  if st.connects.any (fun c => decide (c.1 = a)) then st
  else { st with connects := st.connects ++ [(a, tid)] }

/-- Modelled from the spec (section 4.3): Asyncable::async_disconnect
removes the back-link entry for this channel. -/
def asyncDisconnect (st : ChannelState) (a : Nat) : ChannelState :=
  { st with connects := st.connects.filter (fun c => decide (c.1 ≠ a)) }

/-- Modelled from the spec (section 4.3): Asyncable::async_connectThread
returns the registration thread of an existing connection. -/
def asyncConnectThread (st : ChannelState) (a : Nat) : Option Nat :=
  (st.connects.find? (fun c => decide (c.1 = a))).map Prod.snd

/-- The lookup at the start of ChannelImpl::ThreadData::addReceiver and
removeReceiver: search the main list, then pendingToAdd ("maybe it was
just added and hasn't been moved to the main list yet"). -/
def lookupExisting (st : ChannelState) (tid : Nat) (a : Option Nat) : Option Nat :=
  let td := getThread st tid
  match findByAsyncable st td.receivers a with
  | some rid => some rid
  | none => findByAsyncable st td.pendingToAdd a

/-- The condition of the debug assert in addReceiver
(assert(mode != Asyncable::Mode::SetOnce && "callback is already setted")):
it fires exactly when a non-null subscriber already has a record and the
mode is SetOnce. -/
def setOnceAssertViolated (st : ChannelState) (tid : Nat) (a : Option Nat) (mode : Mode) : Bool :=
  a.isSome && decide (mode = Mode.SetOnce) && (lookupExisting st tid a).isSome

/-- ChannelImpl::ThreadData::addReceiver (release semantics; the debug
assert is setOnceAssertViolated).  Returns the state and needIncrement.
When the subscriber already has a record: under SetOnce the function
returns early with no change at all; otherwise the callback is replaced in
place.  A new record starts enabled, is pushed onto pendingToAdd, and for
a non-null subscriber async_connect records the back-link. -/
def addReceiver (st0 : ChannelState) (tid : Nat) (a : Option Nat) (f : Nat) (mode : Mode) :
    ChannelState × Bool :=
  let st := ensureThread st0 tid
  let r : Option Nat := if a.isSome then lookupExisting st tid a else none
  match r with
  | some rid =>
      if mode = Mode.SetOnce then (st, false)
      else (updateRec st rid (fun rc => { rc with callback := f }), false)
  | none =>
      let rid := st.nextId
      let st := { st with store := st.store ++ [(rid, { enabled := true, receiver := a, callback := f })],
                          nextId := rid + 1 }
      let st := match a with
                | some av => asyncConnect st av tid
                | none => st
      let td := getThread st tid
      let st := setThread st tid { td with pendingToAdd := td.pendingToAdd ++ [rid] }
      (st, true)

/-- ChannelImpl::onReceive: addReceiver on the current thread's table, and
increment the enabled count for a new binding. -/
def onReceive (st : ChannelState) (tid : Nat) (a : Option Nat) (f : Nat) (mode : Mode) :
    ChannelState :=
  let p := addReceiver st tid a f mode
  if p.2 then { p.1 with enabledReceiversCount := p.1.enabledReceiversCount + 1 } else p.1

/-- ChannelImpl::ThreadData::removeReceiver (current version).  Finds the
record in receivers, then pendingToAdd; if found and still enabled, it is
disabled, its subscriber pointer nulled, and it is staged on
pendingToRemove.  Returns needDecrement. -/
def removeReceiver (st0 : ChannelState) (tid : Nat) (a : Nat) : ChannelState × Bool :=
  let st := ensureThread st0 tid
  match lookupExisting st tid (some a) with
  | none => (st, false)
  | some rid =>
      let rc := (lookupRec st rid).getD { enabled := false }
      if rc.enabled then
        let st := updateRec st rid (fun x => { x with enabled := false, receiver := none })
        let td := getThread st tid
        (setThread st tid { td with pendingToRemove := td.pendingToRemove ++ [rid] }, true)
      else (st, false)

/-- The removeReceiver lambda in ChannelImpl::disconnect: table-level
removeReceiver on the executing thread plus the count decrement. -/
def removeReceiverAndCount (st : ChannelState) (tid : Nat) (a : Nat) : ChannelState :=
  let p := removeReceiver st tid a
  if p.2 then { p.1 with enabledReceiversCount := p.1.enabledReceiversCount - 1 } else p.1

/-- ChannelImpl::sendToQueue: find (or lazily create) the SPSC queue from
sendTh to receiveTh inside sendTh's slot and push the message. -/
def sendToQueue (st0 : ChannelState) (sendTh receiveTh : Nat) (m : CallMsg) : ChannelState :=
  let st := ensureThread st0 sendTh
  let td := getThread st sendTh
  if td.queues.any (fun qd => decide (qd.receiveTh = receiveTh)) then
    setThread st sendTh
      { td with queues := td.queues.map (fun qd =>
          if qd.receiveTh = receiveTh then { qd with msgs := qd.msgs ++ [m] } else qd) }
  else
    setThread st sendTh { td with queues := td.queues ++ [{ receiveTh := receiveTh, msgs := [m] }] }

/-- ChannelImpl::disconnect(a, connectThId) (the two-argument overload of
the current version): sever the Asyncable back-link, then either remove on
this thread (when connectThId is the current thread) or enqueue the
self-disconnect CallMsg toward the registration thread. -/
def disconnect2 (st0 : ChannelState) (curTh : Nat) (a : Nat) (connectThId : Nat) : ChannelState :=
  let st := asyncDisconnect st0 a
  if connectThId = curTh then removeReceiverAndCount st curTh a
  else sendToQueue st curTh connectThId (CallMsg.selfDisconnect a)

/-- ChannelImpl::disconnect(a) (one-argument overload): resolves the
registration thread through async_connectThread.  asyncable.h is not under
src/, so the value it returns for a subscriber that is no longer connected
is modelled by the explicit fallback parameter (the C++ code would get a
default-constructed std::thread::id). -/
def disconnect1 (fallback : Nat) (st : ChannelState) (curTh : Nat) (a : Nat) : ChannelState :=
  disconnect2 st curTh a ((asyncConnectThread st a).getD fallback)

/-- What a callback does to the channel while it runs: re-subscribe
(Channel::onReceive) or disconnect (Channel::disconnect /
resetOnReceive). -/
inductive Action where
  | actReceive (a : Option Nat) (f : Nat) (mode : Mode)
  | actDisconnect (fallback : Nat) (a : Nat)
deriving DecidableEq, Repr

/-- Execute one callback side effect on the thread running the dispatch. -/
def runAction (curTh : Nat) (st : ChannelState) : Action → ChannelState
  | .actReceive a f mode => onReceive st curTh a f mode
  | .actDisconnect fb a => disconnect1 fb st curTh a

/-- A program assigns to each callback tag the channel actions that the
callback performs when invoked. -/
abbrev Prog := Nat → List Action

/-- The dispatch loop of ChannelImpl::ThreadData::receiversCall: iterate
the receivers snapshot; skip records whose enabled flag is false at the
moment they are visited; for a send thunk invoke the record's callback
(recording an Event, then running its actions); for the self-disconnect
thunk run the captured removal exactly for the matching subscriber. -/
def callLoop (prog : Prog) (curTh : Nat) (m : CallMsg) :
    List Nat → ChannelState → ChannelState × List Event
  | [], st => (st, [])
  | rid :: rest, st =>
      let rc := (lookupRec st rid).getD { enabled := false }
      if rc.enabled then
        match m with
        | .call payload =>
            let ev : Event := { rid := rid, receiver := rc.receiver, callback := rc.callback,
                                payload := payload }
            let st1 := (prog rc.callback).foldl (runAction curTh) st
            let p := callLoop prog curTh m rest st1
            (p.1, ev :: p.2)
        | .selfDisconnect a =>
            if rc.receiver = some a then
              callLoop prog curTh m rest (removeReceiverAndCount st curTh a)
            else callLoop prog curTh m rest st
      else callLoop prog curTh m rest st

/-- ChannelImpl::ThreadData::addPending: merge pendingToAdd into the
receiver list and clear it. -/
def addPending (st : ChannelState) (tid : Nat) : ChannelState :=
  let td := getThread st tid
  if td.pendingToAdd.isEmpty then st
  else setThread st tid { td with receivers := td.receivers ++ td.pendingToAdd, pendingToAdd := [] }

/-- One step of ChannelImpl::ThreadData::removePending: delete the staged
record and erase it from the receiver list.  The debug assert
(assert(it != receivers.end())) fails when the staged record is still
sitting in pendingToAdd; in release the guard keeps the record. -/
def removePendingOne (s : ChannelState) (tid rid : Nat) : ChannelState :=
  let td := getThread s tid
  if td.receivers.contains rid then
    setThread (delRec s rid) tid { td with receivers := td.receivers.erase rid }
  else s

/-- ChannelImpl::ThreadData::removePending. -/
def removePending (st : ChannelState) (tid : Nat) : ChannelState :=
  let td := getThread st tid
  if td.pendingToRemove.isEmpty then st
  else
    let st1 := td.pendingToRemove.foldl (fun s rid => removePendingOne s tid rid) st
    let td1 := getThread st1 tid
    setThread st1 tid { td1 with pendingToRemove := [] }

/-- ChannelImpl::ThreadData::receiversCall(args...): the dispatch pass for
an inline (same-thread) send. -/
def receiversCallArgs (prog : Prog) (curTh : Nat) (payload : Nat) (st0 : ChannelState) :
    ChannelState × List Event :=
  let st := addPending st0 curTh
  let st := removePending st curTh
  let p := callLoop prog curTh (CallMsg.call payload) (getThread st curTh).receivers st
  let st := removePending p.1 curTh
  let st := addPending st curTh
  (st, p.2)

/-- ChannelImpl::ThreadData::receiversCall(const CallMsg&): the dispatch
pass run by the queue's port2 handler for a cross-thread message. -/
def receiversCallMsg (prog : Prog) (curTh : Nat) (m : CallMsg) (st0 : ChannelState) :
    ChannelState × List Event :=
  let st := addPending st0 curTh
  let st := removePending st curTh
  let p := callLoop prog curTh m (getThread st curTh).receivers st
  let st := removePending p.1 curTh
  let st := addPending st curTh
  (st, p.2)

/-- ChannelImpl::sendAuto: run the pass inline on the sender thread's
table, then enqueue a CallMsg capturing the payload toward every other
known subscriber thread. -/
def sendAuto (prog : Prog) (st0 : ChannelState) (curTh : Nat) (payload : Nat) :
    ChannelState × List Event :=
  let st := ensureThread st0 curTh
  let p := receiversCallArgs prog curTh payload st
  let others := (p.1.threads.map ThreadData.threadId).filter (fun t => decide (t ≠ curTh))
  (others.foldl (fun s t => sendToQueue s curTh t (CallMsg.call payload)) p.1, p.2)

/-- ChannelImpl::sendQueue: enqueue toward every known subscriber thread,
the sender thread included; nothing runs inline. -/
def sendQueue (st0 : ChannelState) (curTh : Nat) (payload : Nat) : ChannelState × List Event :=
  let st := ensureThread st0 curTh
  let ts := st.threads.map ThreadData.threadId
  (ts.foldl (fun s t => sendToQueue s curTh t (CallMsg.call payload)) st, [])

/-- ChannelImpl::isConnected. -/
def isConnected (st : ChannelState) : Bool :=
  decide (st.enabledReceiversCount > 0)

/-- ChannelImpl::send: fast-path early exit when no receiver is enabled,
otherwise dispatch by mode. -/
def send (prog : Prog) (st : ChannelState) (curTh : Nat) (mode : SendMode) (payload : Nat) :
    ChannelState × List Event :=
  if isConnected st then
    match mode with
    | .Auto => sendAuto prog st curTh payload
    | .Queue => sendQueue st curTh payload
  else (st, [])

/-- Drain the messages of one inbound queue on the receiving thread: each
message runs one receiversCall pass (the port2 onMessage handler). -/
def processMsgs (prog : Prog) (recvTh : Nat) (msgs : List CallMsg) (st : ChannelState) :
    ChannelState × List Event :=
  msgs.foldl (fun acc m =>
    let p := receiversCallMsg prog recvTh m acc.1
    (p.1, acc.2 ++ p.2)) (st, [])

/-- QueuePool::processMessages restricted to the (sendTh to recvTh) edge of
this channel: pop everything from that SPSC queue and run the port2
handler (which looks up threadData(recvTh), creating it if needed, and
runs receiversCall) on each message in FIFO order. -/
def pumpQueue (prog : Prog) (st0 : ChannelState) (sendTh recvTh : Nat) :
    ChannelState × List Event :=
  let td := getThread st0 sendTh
  match td.queues.find? (fun qd => decide (qd.receiveTh = recvTh)) with
  | none => (st0, [])
  | some qd =>
      let st := setThread st0 sendTh
        { td with queues := td.queues.map (fun q =>
            if q.receiveTh = recvTh then { q with msgs := [] } else q) }
      let st := ensureThread st recvTh
      processMsgs prog recvTh qd.msgs st

/-- The channel operations visible to user code, used to describe
reachable channel states. -/
inductive TopOp where
  | opReceive (tid : Nat) (a : Option Nat) (f : Nat) (mode : Mode)
  | opDisconnect2 (curTh a connectThId : Nat)
  | opDisconnect1 (fallback curTh a : Nat)
  | opSend (curTh : Nat) (mode : SendMode) (payload : Nat)
  | opPump (sendTh recvTh : Nat)
deriving Repr

/-- Run one top-level operation. -/
def runOp (prog : Prog) (st : ChannelState) : TopOp → ChannelState
  | .opReceive tid a f mode => onReceive st tid a f mode
  | .opDisconnect2 c a th => disconnect2 st c a th
  | .opDisconnect1 fb c a => disconnect1 fb st c a
  | .opSend c m p => (send prog st c m p).1
  | .opPump s r => (pumpQueue prog st s r).1

/-- All states reachable from a fresh channel by a sequence of operations
(dispatch included; callbacks may mutate the channel through prog). -/
def runOps (prog : Prog) (ops : List TopOp) : ChannelState :=
  ops.foldl (runOp prog) {}

/-! ## The older ChannelImpl (second version in channelimpl.h)

src/async/channel.h still calls disconnectReceiver / disableReceiver,
which exist only in this older ChannelImpl: its ThreadData has a
receiversIteration flag and a single receivers vector (no staging lists).
Only the pieces reached by Channel::disconnect are modelled. -/

/-- ThreadData of the older ChannelImpl. -/
structure OldThreadData where
  threadId : Nat
  receiversIteration : Bool := false
  receivers : List Nat := []
deriving DecidableEq, Repr

/-- State of the older ChannelImpl plus the Channel facade around it.
deferredDisconnects models the disconnectCh queue of Channel::disconnect
(the subscribers whose disconnect was re-posted). -/
structure OldState where
  store : List (Nat × Receiver) := []
  nextId : Nat := 0
  threads : List OldThreadData := []
  deferredDisconnects : List Nat := []
  enabledReceiversCount : Int := 0
deriving DecidableEq, Repr

/-- Heap read in the old model. -/
def oldLookupRec (st : OldState) (rid : Nat) : Option Receiver :=
  (st.store.find? (fun p => decide (p.1 = rid))).map Prod.snd

/-- Old ChannelImpl::threadData, lookup half. -/
def oldGetThread (st : OldState) (tid : Nat) : OldThreadData :=
  (st.threads.find? (fun td => decide (td.threadId = tid))).getD { threadId := tid }

/-- Replace a slot in the old model. -/
def oldSetThread (st : OldState) (tid : Nat) (td : OldThreadData) : OldState :=
  { st with threads := st.threads.map (fun x => if x.threadId = tid then td else x) }

/-- Old ChannelImpl::findReceiver. -/
def oldFindReceiver (st : OldState) (ids : List Nat) (a : Nat) : Option Nat :=
  ids.find? (fun rid =>
    match oldLookupRec st rid with
    | some r => decide (r.receiver = some a)
    | none => false)

/-- Old ChannelImpl::onReceive: push a fresh enabled record straight onto
the receivers vector, increment the count. -/
def oldOnReceive (st : OldState) (tid : Nat) (a : Option Nat) (f : Nat) : OldState :=
  let rid := st.nextId
  let st := { st with store := st.store ++ [(rid, { enabled := true, receiver := a, callback := f })],
                      nextId := rid + 1 }
  let td := oldGetThread st tid
  let st := if st.threads.any (fun x => decide (x.threadId = tid)) then
              oldSetThread st tid { td with receivers := td.receivers ++ [rid] }
            else { st with threads := st.threads ++ [{ td with receivers := td.receivers ++ [rid] }] }
  { st with enabledReceiversCount := st.enabledReceiversCount + 1 }

/-- Old ChannelImpl::disconnectReceiver: only on the registration thread
and only while no dispatch is iterating; physically removes the record,
decrementing the count only when the record was still enabled.  Returns
false when the removal could not be done synchronously. -/
def oldDisconnectReceiver (st : OldState) (curTh a connectThId : Nat) : OldState × Bool :=
  if connectThId = curTh then
    let td := oldGetThread st curTh
    if td.receiversIteration then (st, false)
    else
      match oldFindReceiver st td.receivers a with
      | some rid =>
          let rc := (oldLookupRec st rid).getD { enabled := false }
          let st := if rc.enabled then
                      { st with enabledReceiversCount := st.enabledReceiversCount - 1 }
                    else st
          let st := { st with store := st.store.filter (fun p => decide (p.1 ≠ rid)) }
          (oldSetThread st curTh { td with receivers := td.receivers.erase rid }, true)
      | none => (st, true)
  else (st, false)

/-- Old ChannelImpl::disableReceiver (the second version in the file,
lines 841-862): finds the record and sets enabled to false, decrementing
the count with no check that the record was still enabled.  The receiver
pointer is not nulled, so a second call finds the same record again. -/
def oldDisableReceiver (st : OldState) (curTh a connectThId : Nat) : OldState :=
  if connectThId = curTh then
    let td := oldGetThread st curTh
    match oldFindReceiver st td.receivers a with
    | some rid =>
        let st := { st with store := st.store.map (fun (p : Nat × Receiver) =>
                      if p.1 = rid then (p.1, { p.2 with enabled := false }) else p) }
        { st with enabledReceiversCount := st.enabledReceiversCount - 1 }
    | none => st
  else st

/-- Channel::disconnect from src/async/channel.h: try the synchronous
removal; if it fails (iterating or foreign thread), disable the record and
re-post the disconnect through the internal disconnectCh channel. -/
def oldChannelDisconnect (st : OldState) (curTh a connectThId : Nat) : OldState :=
  let p := oldDisconnectReceiver st curTh a connectThId
  if p.2 then p.1
  else
    let st := oldDisableReceiver p.1 curTh a connectThId
    { st with deferredDisconnects := st.deferredDisconnects ++ [a] }

/-! ## Promise facade (src/async/promise.h) -/

/-- The state of one Promise: the resolve channel plus the has-reject
flag.  (The reject channel is not involved in any claim.) -/
structure PromiseState where
  resolveCh : ChannelState := {}
  has_reject : Bool := false
deriving Repr

/-- Promise::onResolve: an ordinary channel subscription on the resolve
channel (promise.h forwards receiver and callback to
resolveCh.onReceive). -/
def promiseOnResolve (p : PromiseState) (tid : Nat) (a : Option Nat) (f : Nat) : PromiseState :=
  { p with resolveCh := onReceive p.resolveCh tid a f Mode.SetOnce }

/-- Promise::resolve: send on the resolve channel in Auto mode. -/
def promiseResolve (prog : Prog) (p : PromiseState) (tid : Nat) (payload : Nat) :
    PromiseState × List Event :=
  let r := send prog p.resolveCh tid SendMode.Auto payload
  ({ p with resolveCh := r.1 }, r.2)

/-- Pump one channel edge of the resolve channel. -/
def promisePump (prog : Prog) (p : PromiseState) (sendTh recvTh : Nat) :
    PromiseState × List Event :=
  let r := pumpQueue prog p.resolveCh sendTh recvTh
  ({ p with resolveCh := r.1 }, r.2)

/-! ## Concrete scenario states used by the counterexamples and
witnesses -/

/-- The program under which no callback touches the channel. -/
def trivialProg : Prog := fun _ => []

/-- C1 scenario: subscriber 1 registers callback 10 with SetOnce, a send
merges the record into the main list, then subscriber 1 calls onReceive
again with callback 20 and SetOnce. -/
def c1Setup : ChannelState :=
  (send trivialProg (onReceive {} 0 (some 1) 10 Mode.SetOnce) 0 SendMode.Auto 99).1

/-- C2/C6 scenario family: subscriber s registers callback cb on thread
regTh of a fresh channel. -/
def oneSubscriber (s cb : Nat) (m : Mode) (regTh : Nat) : ChannelState :=
  onReceive {} regTh (some s) cb m

/-- C3 scenario program: the driver callback (tag cbD) performs
onReceive(s, cb1); disconnect(s); onReceive(s, cb2) when invoked. -/
def c3Prog (cbD s cb1 cb2 fb : Nat) (m1 m2 : Mode) : Prog := fun c =>
  if c = cbD then
    [Action.actReceive (some s) cb1 m1, Action.actDisconnect fb s,
     Action.actReceive (some s) cb2 m2]
  else []

/-- C7 failing input: the old channel with one enabled record for
subscriber 1 on thread 0, observed while that thread's dispatch loop is
iterating (receiversIteration set, as sendAuto does around the loop). -/
def c7Start : OldState :=
  { store := [(0, { enabled := true, receiver := some 1, callback := 10 })],
    nextId := 1,
    threads := [{ threadId := 0, receiversIteration := true, receivers := [0] }],
    enabledReceiversCount := 1 }

/-- C9 counterexample run: handler with tag 10 subscribes on thread 2;
the promise body resolves with 42 on thread 1 (the message to thread 2 is
now in flight); a second handler with tag 20 subscribes on thread 2; then
thread 2 pumps. -/
def c9AfterResolve : PromiseState :=
  (promiseResolve trivialProg
    { resolveCh := onReceive {} 2 none 10 Mode.SetOnce } 1 42).1

/-! ## Observation predicates -/

/-- The dispatch-relevant core of a subscriber table: everything except
the outbound queues. -/
def tableCore (td : ThreadData) : Nat × List Nat × List Nat × List Nat :=
  (td.threadId, td.receivers, td.pendingToAdd, td.pendingToRemove)

/-- A table with its outbound queues dropped. -/
def stripQueues (td : ThreadData) : ThreadData :=
  { td with queues := [] }

/-- No record of the channel references subscriber s ("no prior
subscription by s"). -/
def storeFreeOf (st : ChannelState) (s : Nat) : Prop :=
  ∀ p ∈ st.store, p.2.receiver ≠ some s

/-- Subscriber s holds no back-link to the channel. -/
def connectsFreeOf (st : ChannelState) (s : Nat) : Prop :=
  ∀ c ∈ st.connects, c.1 ≠ s

/-- Record ids mentioned by the tables and the store were all allocated
before nextId (true of every state the implementation builds, since ids
are handed out by the nextId counter). -/
def idsBelowNext (st : ChannelState) : Prop :=
  (∀ p ∈ st.store, p.1 < st.nextId) ∧
  ∀ td ∈ st.threads, ∀ id ∈ td.receivers ++ td.pendingToAdd ++ td.pendingToRemove,
    id < st.nextId

/-- The C10 invariant: a record whose enabled flag has been cleared has
also had its subscriber back-pointer nulled. -/
def disabledNulled (st : ChannelState) : Prop :=
  ∀ p ∈ st.store, p.2.enabled = false → p.2.receiver = none

/-- Two channel states that agree on everything a dispatch reads: heap,
id counter, back-links, enabled count and the core of every table.  They
may differ only in queued messages. -/
def QEq (st st' : ChannelState) : Prop :=
  st.store = st'.store ∧ st.nextId = st'.nextId ∧ st.connects = st'.connects ∧
  st.enabledReceiversCount = st'.enabledReceiversCount ∧
  st.threads.map stripQueues = st'.threads.map stripQueues

/-- A channel at rest on a single thread t: arbitrary heap, receiver list,
queues, back-links and count, with no staged pendings (no dispatch in
progress). -/
def singleTableState (store0 : List (Nat × Receiver)) (n0 t : Nat) (recs0 : List Nat)
    (qs0 : List QueueData) (cons0 : List (Nat × Nat)) (c0 : Int) : ChannelState :=
  { store := store0, nextId := n0,
    threads := [{ threadId := t, receivers := recs0, queues := qs0 }],
    connects := cons0, enabledReceiversCount := c0 }

/-! ## Basic projection lemmas -/

lemma setThread_store (st : ChannelState) (tid : Nat) (td : ThreadData) :
    (setThread st tid td).store = st.store := rfl

lemma setThread_count (st : ChannelState) (tid : Nat) (td : ThreadData) :
    (setThread st tid td).enabledReceiversCount = st.enabledReceiversCount := rfl

lemma setThread_connects (st : ChannelState) (tid : Nat) (td : ThreadData) :
    (setThread st tid td).connects = st.connects := rfl

lemma ensureThread_store (st : ChannelState) (tid : Nat) :
    (ensureThread st tid).store = st.store := by
  unfold ensureThread; split <;> rfl

lemma ensureThread_count (st : ChannelState) (tid : Nat) :
    (ensureThread st tid).enabledReceiversCount = st.enabledReceiversCount := by
  unfold ensureThread; split <;> rfl

lemma ensureThread_connects (st : ChannelState) (tid : Nat) :
    (ensureThread st tid).connects = st.connects := by
  unfold ensureThread; split <;> rfl

lemma sendToQueue_store (st : ChannelState) (a b : Nat) (m : CallMsg) :
    (sendToQueue st a b m).store = st.store := by
  unfold sendToQueue
  dsimp only
  split <;> simp [setThread, ensureThread_store]

lemma sendToQueue_count (st : ChannelState) (a b : Nat) (m : CallMsg) :
    (sendToQueue st a b m).enabledReceiversCount = st.enabledReceiversCount := by
  unfold sendToQueue
  dsimp only
  split <;> simp [setThread, ensureThread_count]

lemma sendToQueue_connects (st : ChannelState) (a b : Nat) (m : CallMsg) :
    (sendToQueue st a b m).connects = st.connects := by
  unfold sendToQueue
  dsimp only
  split <;> simp [setThread, ensureThread_connects]

lemma asyncDisconnect_store (st : ChannelState) (a : Nat) :
    (asyncDisconnect st a).store = st.store := rfl

lemma asyncDisconnect_count (st : ChannelState) (a : Nat) :
    (asyncDisconnect st a).enabledReceiversCount = st.enabledReceiversCount := rfl

lemma hasThread_of_lookupExisting (st : ChannelState) (tid : Nat) (a : Option Nat)
    (h : (lookupExisting st tid a).isSome) : hasThread st tid = true := by
  by_contra hc
  have hfind : st.threads.find? (fun td => decide (td.threadId = tid)) = none := by
    rw [List.find?_eq_none]
    intro x hx hp
    exact hc (by unfold hasThread; exact List.any_eq_true.mpr ⟨x, hx, hp⟩)
  simp [lookupExisting, getThread, hfind, findByAsyncable, List.find?] at h

lemma ensureThread_of_hasThread (st : ChannelState) (tid : Nat)
    (h : hasThread st tid = true) : ensureThread st tid = st := by
  unfold ensureThread
  simp [h]

/-! ## Theorems about the claims -/

/-- Claim C1 (counterexample).  With subscriber 1 already holding callback
10 on thread 0 (c1Setup), a release-build onReceive with mode SetOnce and
callback 20 does not replace the callback: the state is unchanged, the
record still holds callback 10, and a subsequent send invokes callback 10,
not 20 — contradicting the claim that release silently replaces the
existing callback and that a send afterwards invokes the new one. -/
theorem C1_setOnce_counterexample :
    onReceive c1Setup 0 (some 1) 20 Mode.SetOnce = c1Setup ∧
    lookupRec (onReceive c1Setup 0 (some 1) 20 Mode.SetOnce) 0 =
      some { enabled := true, receiver := some 1, callback := 10 } ∧
    (send trivialProg (onReceive c1Setup 0 (some 1) 20 Mode.SetOnce) 0 SendMode.Auto 77).2 =
      [{ rid := 0, receiver := some 1, callback := 10, payload := 77 }] := by
  decide

/-- Claim C1 (amended).  For every channel and every subscriber that
already has a registered record on the current thread's table, onReceive
with mode SetOnce fires the debug assert, and in a release build it is a
silent no-op: the state is completely unchanged, so the existing callback
stays and a later send still invokes the old callback. -/
theorem C1_setOnce_amended (st : ChannelState) (tid s f : Nat)
    (h : (lookupExisting st tid (some s)).isSome) :
    onReceive st tid (some s) f Mode.SetOnce = st ∧
    setOnceAssertViolated st tid (some s) Mode.SetOnce = true := by
  have hht : hasThread st tid = true := hasThread_of_lookupExisting st tid (some s) h
  have hens : ensureThread st tid = st := ensureThread_of_hasThread st tid hht
  obtain ⟨rid, hrid⟩ := Option.isSome_iff_exists.mp h
  refine ⟨?_, ?_⟩
  · simp [onReceive, addReceiver, hens, hrid]
  · simp [setOnceAssertViolated, h]

/-- Claim C1 (witness for the amended theorem, at the concrete c1Setup
state where subscriber 1 holds callback 10). -/
theorem C1_setOnce_amended_witness :
    ((lookupExisting c1Setup 0 (some 1)).isSome = true) ∧
    (onReceive c1Setup 0 (some 1) 20 Mode.SetOnce = c1Setup ∧
     setOnceAssertViolated c1Setup 0 (some 1) Mode.SetOnce = true) :=
  ⟨by decide, C1_setOnce_amended c1Setup 0 1 20 (by decide)⟩

/-- Claim C2 (counterexample).  Subscriber 1 registered on thread 0;
disconnect called from thread 5.  After disconnect returns the record is
still enabled and enabledReceiversCount is still 1 — contradicting the
claim that the record is marked disabled and the count decremented before
disconnect returns. -/
theorem C2_crossThread_counterexample :
    lookupRec (disconnect2 (oneSubscriber 1 10 Mode.AsyncSet 0) 5 1 0) 0 =
      some { enabled := true, receiver := some 1, callback := 10 } ∧
    (disconnect2 (oneSubscriber 1 10 Mode.AsyncSet 0) 5 1 0).enabledReceiversCount = 1 := by
  decide

set_option maxHeartbeats 1000000 in
/-- Claim C2 (amended).  When the registration thread differs from the
calling thread, disconnect severs the Asyncable back-link and enqueues a
self-disconnect CallMsg toward the registration thread, and returns with
the store (so the record's enabled flag) and the enabled count completely
unchanged; the disable, the decrement and the removal all happen only when
the registration thread pumps the message, as the scenario part shows. -/
theorem C2_crossThread_disconnect_deferred :
    (∀ (st : ChannelState) (curTh regTh a : Nat), regTh ≠ curTh →
      disconnect2 st curTh a regTh =
        sendToQueue (asyncDisconnect st a) curTh regTh (CallMsg.selfDisconnect a) ∧
      (disconnect2 st curTh a regTh).store = st.store ∧
      (disconnect2 st curTh a regTh).enabledReceiversCount = st.enabledReceiversCount) ∧
    (∀ (s cb regTh curTh : Nat) (m : Mode), regTh ≠ curTh →
      lookupRec (disconnect2 (oneSubscriber s cb m regTh) curTh s regTh) 0 =
        some { enabled := true, receiver := some s, callback := cb } ∧
      (disconnect2 (oneSubscriber s cb m regTh) curTh s regTh).enabledReceiversCount = 1 ∧
      (pumpQueue trivialProg (disconnect2 (oneSubscriber s cb m regTh) curTh s regTh)
          curTh regTh).1.store = [] ∧
      (pumpQueue trivialProg (disconnect2 (oneSubscriber s cb m regTh) curTh s regTh)
          curTh regTh).1.enabledReceiversCount = 0) := by
  constructor
  · intro st curTh regTh a h
    have heq : disconnect2 st curTh a regTh =
        sendToQueue (asyncDisconnect st a) curTh regTh (CallMsg.selfDisconnect a) := by
      simp [disconnect2, h]
    refine ⟨heq, ?_, ?_⟩
    · rw [heq, sendToQueue_store, asyncDisconnect_store]
    · rw [heq, sendToQueue_count, asyncDisconnect_count]
  · intro s cb regTh curTh m h
    have h1 : disconnect2 (oneSubscriber s cb m regTh) curTh s regTh =
        { store := [(0, { enabled := true, receiver := some s, callback := cb })],
          nextId := 1,
          threads := [{ threadId := regTh, pendingToAdd := [0] },
                      { threadId := curTh,
                        queues := [{ receiveTh := regTh, msgs := [CallMsg.selfDisconnect s] }] }],
          connects := [],
          enabledReceiversCount := 1 } := by
      simp [oneSubscriber, onReceive, addReceiver, ensureThread, hasThread, getThread,
            lookupExisting, findByAsyncable, recMatches, lookupRec, asyncConnect, setThread,
            disconnect2, asyncDisconnect, asyncConnectThread, sendToQueue,
            h, List.find?, List.any, List.filter]
    rw [h1]
    refine ⟨by simp [lookupRec, List.find?], rfl, ?_, ?_⟩ <;>
      simp [pumpQueue, processMsgs, receiversCallMsg, addPending, removePending,
            removePendingOne, callLoop, removeReceiverAndCount, removeReceiver, lookupExisting,
            findByAsyncable, recMatches, lookupRec, updateRec, delRec, ensureThread, hasThread,
            getThread, setThread, h, Ne.symm h, List.find?, List.any, List.filter]

/-- Claim C2 (witness for the amended theorem at subscriber 1, callback
10, registration thread 0, disconnect from thread 5). -/
theorem C2_crossThread_disconnect_deferred_witness :
    ((0 : Nat) ≠ 5) ∧
    (disconnect2 (oneSubscriber 1 10 Mode.AsyncSet 0) 5 1 0 =
      sendToQueue (asyncDisconnect (oneSubscriber 1 10 Mode.AsyncSet 0) 1) 5 0
        (CallMsg.selfDisconnect 1)) ∧
    (pumpQueue trivialProg (disconnect2 (oneSubscriber 1 10 Mode.AsyncSet 0) 5 1 0)
        5 0).1.enabledReceiversCount = 0 :=
  ⟨by decide,
   (C2_crossThread_disconnect_deferred.1 (oneSubscriber 1 10 Mode.AsyncSet 0) 5 0 1
      (by decide)).1,
   (C2_crossThread_disconnect_deferred.2 1 10 0 5 Mode.AsyncSet (by decide)).2.2.2⟩

/-- Claim C7 (failing input).  Old ChannelImpl and Channel facade: one
enabled record for subscriber 1 on thread 0 whose dispatch loop is
iterating; Channel::disconnect (the resetOnReceive path) called twice from
inside the callback.  disableReceiver decrements without checking the
enabled flag, so the count ends at -1, below zero — the code's own
assert(m_enabledReceiversCount >= 0) fails. -/
theorem C7_old_disable_count_negative :
    (oldChannelDisconnect (oldChannelDisconnect c7Start 0 1 0) 0 1 0).enabledReceiversCount
      = -1 ∧
    ¬(0 ≤ (oldChannelDisconnect (oldChannelDisconnect c7Start 0 1 0) 0 1 0).enabledReceiversCount) := by
  decide

/-- Claim C8.  When enabledReceiversCount is 0, send in any mode with any
payload returns the state unchanged and invokes nothing: the isConnected
fast path exits before any dispatch or enqueue. -/
theorem C8_send_silent_noop (prog : Prog) (st : ChannelState) (curTh : Nat)
    (mode : SendMode) (payload : Nat) (h : st.enabledReceiversCount = 0) :
    send prog st curTh mode payload = (st, []) := by
  simp [send, isConnected, h]

/-- Claim C8 (witness at the fresh channel). -/
theorem C8_send_silent_noop_witness :
    (({} : ChannelState).enabledReceiversCount = 0) ∧
    send trivialProg {} 3 SendMode.Auto 7 = ({}, []) :=
  ⟨rfl, C8_send_silent_noop trivialProg {} 3 SendMode.Auto 7 rfl⟩

/-- Claim C9 (counterexample).  Handler 10 subscribes on thread 2, the
promise resolves with 42 on thread 1 (the resolution message toward
thread 2 is in flight), handler 20 subscribes on thread 2 afterwards, then
thread 2 pumps: handler 20 — registered after the body called resolve —
is invoked with the earlier resolution value 42, contradicting the claim
that such a handler is never invoked with it. -/
theorem C9_late_subscriber_counterexample :
    (promisePump trivialProg (promiseOnResolve c9AfterResolve 2 none 20) 1 2).2 =
      [{ rid := 0, receiver := none, callback := 10, payload := 42 },
       { rid := 1, receiver := none, callback := 20, payload := 42 }] := by
  decide

set_option maxHeartbeats 1000000 in
/-- Claim C9 (amended).  A promise does not latch its resolution: handlers
registered before resolution are all invoked at resolve time (here two of
them, in subscription order); a handler registered afterwards on the
resolving thread is never invoked with that value — after its registration
nothing is in flight (every queue is empty) and the promise stores no
resolution value to replay.  However, a handler registered on another
subscriber thread after resolve but before that thread pumps the in-flight
resolution message does receive the earlier value (last conjunct, at the
concrete two-thread run). -/
theorem C9_no_latch_amended (t cb1 cb2 cb3 v : Nat) :
    (promiseResolve trivialProg
      { resolveCh := onReceive (onReceive {} t none cb1 Mode.SetOnce) t none cb2 Mode.SetOnce }
      t v).2 =
      [{ rid := 0, receiver := none, callback := cb1, payload := v },
       { rid := 1, receiver := none, callback := cb2, payload := v }] ∧
    (∀ td ∈ (promiseOnResolve (promiseResolve trivialProg
        { resolveCh := onReceive (onReceive {} t none cb1 Mode.SetOnce) t none cb2 Mode.SetOnce }
        t v).1 t none cb3).resolveCh.threads, ∀ qd ∈ td.queues, qd.msgs = []) ∧
    { rid := 1, receiver := none, callback := 20, payload := 42 } ∈
      (promisePump trivialProg (promiseOnResolve c9AfterResolve 2 none 20) 1 2).2 := by
  have h0 : onReceive {} t none cb1 Mode.SetOnce =
      { store := [(0, { enabled := true, receiver := none, callback := cb1 })],
        nextId := 1,
        threads := [{ threadId := t, pendingToAdd := [0] }],
        connects := [],
        enabledReceiversCount := 1 } := by
    simp [onReceive, addReceiver, ensureThread, hasThread, getThread, lookupExisting,
          findByAsyncable, recMatches, lookupRec, setThread, List.find?, List.any]
  have h1 : onReceive
      { store := [(0, { enabled := true, receiver := none, callback := cb1 })],
        nextId := 1,
        threads := [{ threadId := t, pendingToAdd := [0] }],
        connects := [],
        enabledReceiversCount := 1 } t none cb2 Mode.SetOnce =
      { store := [(0, { enabled := true, receiver := none, callback := cb1 }),
                  (1, { enabled := true, receiver := none, callback := cb2 })],
        nextId := 2,
        threads := [{ threadId := t, pendingToAdd := [0, 1] }],
        connects := [],
        enabledReceiversCount := 2 } := by
    simp [onReceive, addReceiver, ensureThread, hasThread, getThread, lookupExisting,
          findByAsyncable, recMatches, lookupRec, setThread, List.find?, List.any]
  have h2 : send trivialProg
      { store := [(0, { enabled := true, receiver := none, callback := cb1 }),
                  (1, { enabled := true, receiver := none, callback := cb2 })],
        nextId := 2,
        threads := [{ threadId := t, pendingToAdd := [0, 1] }],
        connects := [],
        enabledReceiversCount := 2 } t SendMode.Auto v =
      ({ store := [(0, { enabled := true, receiver := none, callback := cb1 }),
                   (1, { enabled := true, receiver := none, callback := cb2 })],
         nextId := 2,
         threads := [{ threadId := t, receivers := [0, 1] }],
         connects := [],
         enabledReceiversCount := 2 },
       [{ rid := 0, receiver := none, callback := cb1, payload := v },
        { rid := 1, receiver := none, callback := cb2, payload := v }]) := by
    simp [send, isConnected, sendAuto, receiversCallArgs, addPending, removePending, callLoop,
          trivialProg, sendToQueue, ensureThread, hasThread, getThread, setThread, lookupRec,
          List.find?, List.any, List.filter]
  rw [h0, h1]
  refine ⟨by simp [promiseResolve, h2], ?_, by decide⟩
  simp only [promiseResolve, h2]
  simp [promiseOnResolve, onReceive, addReceiver, ensureThread, hasThread, getThread,
        lookupExisting, findByAsyncable, recMatches, lookupRec, setThread,
        List.find?, List.any]


/-- Under the program where no callback mutates the channel, the dispatch
loop leaves the state unchanged and invokes exactly the records whose
enabled flag is set, in list order, skipping disabled ones. -/
lemma callLoop_trivial (curTh payload : Nat) (ids : List Nat) (st : ChannelState) :
    callLoop trivialProg curTh (CallMsg.call payload) ids st =
      (st, ids.filterMap (fun rid =>
        match lookupRec st rid with
        | some r => if r.enabled then
            some { rid := rid, receiver := r.receiver, callback := r.callback,
                   payload := payload }
          else none
        | none => none)) := by
  induction ids with
  | nil => rfl
  | cons rid rest ih =>
    cases hl : lookupRec st rid with
    | none => simp [callLoop, hl, ih]
    | some r =>
      cases hr : r.enabled
      · simp [callLoop, hl, hr, ih]
      · simp [callLoop, hl, hr, ih, trivialProg]

/-- Claim C4.  A dispatch pass is exactly: merge pendingAdd, apply
pendingRemove, iterate the receiver list invoking only records whose
enabled flag is true (in order, skipping disabled records), then re-apply
pendingRemove and then pendingAdd.  The first conjunct exhibits the step
order for the CallMsg pass, the second shows the inline-args pass is the
same pass with the call thunk, and the third characterises the invocations
as the enabled records of the merged list (for callbacks that do not
mutate the channel). -/
theorem C4_dispatch_pass_structure :
    (∀ (prog : Prog) (curTh : Nat) (m : CallMsg) (st : ChannelState),
      receiversCallMsg prog curTh m st =
        ((fun q => (addPending (removePending q.1 curTh) curTh, q.2))
          (callLoop prog curTh m
            (getThread (removePending (addPending st curTh) curTh) curTh).receivers
            (removePending (addPending st curTh) curTh)))) ∧
    (∀ (prog : Prog) (curTh payload : Nat) (st : ChannelState),
      receiversCallArgs prog curTh payload st =
        receiversCallMsg prog curTh (CallMsg.call payload) st) ∧
    (∀ (curTh payload : Nat) (st : ChannelState),
      (receiversCallArgs trivialProg curTh payload st).2 =
        (getThread (removePending (addPending st curTh) curTh) curTh).receivers.filterMap
          (fun rid =>
            match lookupRec (removePending (addPending st curTh) curTh) rid with
            | some r => if r.enabled then
                some { rid := rid, receiver := r.receiver, callback := r.callback,
                       payload := payload }
              else none
            | none => none)) := by
  refine ⟨fun prog curTh m st => rfl, fun prog curTh payload st => rfl, ?_⟩
  intro curTh payload st
  simp [receiversCallArgs, callLoop_trivial]


set_option maxHeartbeats 2000000 in
/-- Claim C3.  Starting from a channel whose only record is a driver
callback on thread t and a subscriber s with no prior record, a dispatch
pass in which the driver callback executes onReceive(s, cb1), then
disconnect(s), then onReceive(s, cb2) ends with the observable state of
the last onReceive alone: exactly one enabled record for s, holding cb2
(the leaked staging record is disabled and owner-less), the enabled count
has net-increased by exactly 1, and the next send invokes for s exactly
the last callback, once. -/
theorem C3_pass_net_effect_last_onReceive (t s cbD cb1 cb2 fb p1 p2 : Nat) (m0 m1 m2 : Mode) :
    ((send (c3Prog cbD s cb1 cb2 fb m1 m2) (onReceive {} t none cbD m0) t
        SendMode.Auto p1).1.store.filter
      (fun pr => pr.2.enabled && decide (pr.2.receiver = some s))) =
      [(2, { enabled := true, receiver := some s, callback := cb2 })] ∧
    (send (c3Prog cbD s cb1 cb2 fb m1 m2) (onReceive {} t none cbD m0) t
        SendMode.Auto p1).1.enabledReceiversCount =
      (onReceive {} t none cbD m0).enabledReceiversCount + 1 ∧
    ((send trivialProg
        (send (c3Prog cbD s cb1 cb2 fb m1 m2) (onReceive {} t none cbD m0) t
          SendMode.Auto p1).1 t SendMode.Auto p2).2.filter
      (fun e => decide (e.receiver = some s))) =
      [{ rid := 2, receiver := some s, callback := cb2, payload := p2 }] := by
  have hA : runAction t
      { store := [(0, { enabled := true, receiver := none, callback := cbD })],
        nextId := 1,
        threads := [{ threadId := t, receivers := [0] }],
        connects := [],
        enabledReceiversCount := 1 }
      (Action.actReceive (some s) cb1 m1) =
      { store := [(0, { enabled := true, receiver := none, callback := cbD }),
                  (1, { enabled := true, receiver := some s, callback := cb1 })],
        nextId := 2,
        threads := [{ threadId := t, receivers := [0], pendingToAdd := [1] }],
        connects := [(s, t)],
        enabledReceiversCount := 2 } := by
    simp [runAction, onReceive, addReceiver, ensureThread, hasThread, getThread, lookupExisting,
          findByAsyncable, recMatches, lookupRec, asyncConnect, setThread, List.find?, List.any]
  have hB : runAction t
      { store := [(0, { enabled := true, receiver := none, callback := cbD }),
                  (1, { enabled := true, receiver := some s, callback := cb1 })],
        nextId := 2,
        threads := [{ threadId := t, receivers := [0], pendingToAdd := [1] }],
        connects := [(s, t)],
        enabledReceiversCount := 2 }
      (Action.actDisconnect fb s) =
      { store := [(0, { enabled := true, receiver := none, callback := cbD }),
                  (1, { enabled := false, receiver := none, callback := cb1 })],
        nextId := 2,
        threads := [{ threadId := t, receivers := [0], pendingToAdd := [1],
                      pendingToRemove := [1] }],
        connects := [],
        enabledReceiversCount := 1 } := by
    simp [runAction, disconnect1, disconnect2, asyncConnectThread, asyncDisconnect,
          removeReceiverAndCount, removeReceiver, ensureThread, hasThread, getThread,
          lookupExisting, findByAsyncable, recMatches, lookupRec, updateRec, setThread,
          List.find?, List.any, List.filter]
  have hC : runAction t
      { store := [(0, { enabled := true, receiver := none, callback := cbD }),
                  (1, { enabled := false, receiver := none, callback := cb1 })],
        nextId := 2,
        threads := [{ threadId := t, receivers := [0], pendingToAdd := [1],
                      pendingToRemove := [1] }],
        connects := [],
        enabledReceiversCount := 1 }
      (Action.actReceive (some s) cb2 m2) =
      { store := [(0, { enabled := true, receiver := none, callback := cbD }),
                  (1, { enabled := false, receiver := none, callback := cb1 }),
                  (2, { enabled := true, receiver := some s, callback := cb2 })],
        nextId := 3,
        threads := [{ threadId := t, receivers := [0], pendingToAdd := [1, 2],
                      pendingToRemove := [1] }],
        connects := [(s, t)],
        enabledReceiversCount := 2 } := by
    simp [runAction, onReceive, addReceiver, ensureThread, hasThread, getThread, lookupExisting,
          findByAsyncable, recMatches, lookupRec, asyncConnect, setThread, List.find?, List.any]
  have hsend : send (c3Prog cbD s cb1 cb2 fb m1 m2) (onReceive {} t none cbD m0) t
      SendMode.Auto p1 =
      ({ store := [(0, { enabled := true, receiver := none, callback := cbD }),
                   (1, { enabled := false, receiver := none, callback := cb1 }),
                   (2, { enabled := true, receiver := some s, callback := cb2 })],
         nextId := 3,
         threads := [{ threadId := t, receivers := [0, 1, 2] }],
         connects := [(s, t)],
         enabledReceiversCount := 2 },
       [{ rid := 0, receiver := none, callback := cbD, payload := p1 }]) := by
    simp [send, isConnected, sendAuto, receiversCallArgs, addPending, removePending,
          removePendingOne, callLoop, c3Prog, hA, hB, hC, onReceive, addReceiver, ensureThread,
          hasThread, getThread, lookupExisting, findByAsyncable, recMatches, lookupRec,
          setThread, sendToQueue, List.find?, List.any, List.filter]
  rw [hsend]
  refine ⟨by simp [List.filter], ?_, ?_⟩
  · simp [onReceive, addReceiver, ensureThread, hasThread, getThread, lookupExisting,
          findByAsyncable, recMatches, lookupRec, setThread, List.find?, List.any]
  · simp [send, isConnected, sendAuto, receiversCallArgs, addPending, removePending,
          callLoop, trivialProg, sendToQueue, ensureThread, hasThread, getThread, setThread,
          lookupRec, List.find?, List.any, List.filter]


/-! ## Lemmas about lookups in s-free states -/

lemma lookupRec_some_mem (st : ChannelState) (rid : Nat) (r : Receiver)
    (h : lookupRec st rid = some r) : ∃ k, (k, r) ∈ st.store := by
  unfold lookupRec at h
  cases hf : st.store.find? (fun p => decide (p.1 = rid)) with
  | none => rw [hf] at h; simp at h
  | some pr =>
      rw [hf] at h
      simp at h
      refine ⟨pr.1, ?_⟩
      have hm := List.mem_of_find?_eq_some hf
      have hpr : (pr.1, r) = pr := by rw [← h]
      rwa [hpr]

lemma recMatches_false_of_storeFree (st : ChannelState) (s rid : Nat)
    (h : ∀ pr ∈ st.store, pr.2.receiver ≠ some s) :
    recMatches st (some s) rid = false := by
  unfold recMatches
  cases hl : lookupRec st rid with
  | none => rfl
  | some r =>
      obtain ⟨k, hk⟩ := lookupRec_some_mem st rid r hl
      simpa using h (k, r) hk

lemma findByAsyncable_none_of_matches (st : ChannelState) (s : Nat) (ids : List Nat)
    (h : ∀ rid ∈ ids, recMatches st (some s) rid = false) :
    findByAsyncable st ids (some s) = none := by
  unfold findByAsyncable
  exact List.find?_eq_none.mpr (fun x hx => by simp [h x hx])

lemma findByAsyncable_none_of_storeFree (st : ChannelState) (s : Nat) (ids : List Nat)
    (h : ∀ pr ∈ st.store, pr.2.receiver ≠ some s) :
    findByAsyncable st ids (some s) = none :=
  findByAsyncable_none_of_matches st s ids
    (fun rid _ => recMatches_false_of_storeFree st s rid h)

lemma find?_keys_none (store0 : List (Nat × Receiver)) (n0 : Nat)
    (hkeys : ∀ pr ∈ store0, pr.1 ≠ n0) :
    store0.find? (fun p => decide (p.1 = n0)) = none :=
  List.find?_eq_none.mpr (fun x hx => by simp [hkeys x hx])

lemma lookupRec_append_last (st : ChannelState) (store0 : List (Nat × Receiver))
    (n0 : Nat) (r0 : Receiver) (hst : st.store = store0 ++ [(n0, r0)])
    (hkeys : ∀ pr ∈ store0, pr.1 ≠ n0) :
    lookupRec st n0 = some r0 := by
  unfold lookupRec
  rw [hst, List.find?_append, find?_keys_none store0 n0 hkeys]
  simp [List.find?]

lemma recMatches_append_false (st : ChannelState) (store0 : List (Nat × Receiver))
    (n0 rid s : Nat) (r0 : Receiver) (hst : st.store = store0 ++ [(n0, r0)])
    (hsf : ∀ pr ∈ store0, pr.2.receiver ≠ some s) (hne : rid ≠ n0) :
    recMatches st (some s) rid = false := by
  unfold recMatches lookupRec
  rw [hst, List.find?_append]
  cases hf : store0.find? (fun p => decide (p.1 = rid)) with
  | some pr =>
      simpa using hsf pr (List.mem_of_find?_eq_some hf)
  | none =>
      have : (n0 : Nat) ≠ rid := fun hc => hne hc.symm
      simp [List.find?, this]

lemma findByAsyncable_append_none (st : ChannelState) (store0 : List (Nat × Receiver))
    (n0 s : Nat) (r0 : Receiver) (ids : List Nat) (hst : st.store = store0 ++ [(n0, r0)])
    (hsf : ∀ pr ∈ store0, pr.2.receiver ≠ some s) (hids : ∀ rid ∈ ids, rid ≠ n0) :
    findByAsyncable st ids (some s) = none :=
  findByAsyncable_none_of_matches st s ids
    (fun rid hrid => recMatches_append_false st store0 n0 rid s r0 hst hsf (hids rid hrid))

lemma connects_find?_none (cons0 : List (Nat × Nat)) (s : Nat)
    (hcf : ∀ c ∈ cons0, c.1 ≠ s) :
    cons0.find? (fun c => decide (c.1 = s)) = none :=
  List.find?_eq_none.mpr (fun x hx => by simp [hcf x hx])

lemma connects_any_false (cons0 : List (Nat × Nat)) (s : Nat)
    (hcf : ∀ c ∈ cons0, c.1 ≠ s) :
    cons0.any (fun c => decide (c.1 = s)) = false := by
  rw [List.any_eq_false]
  intro x hx
  simp [hcf x hx]

lemma connects_filter_self (cons0 : List (Nat × Nat)) (s : Nat)
    (hcf : ∀ c ∈ cons0, c.1 ≠ s) :
    cons0.filter (fun c => decide (c.1 ≠ s)) = cons0 :=
  List.filter_eq_self.mpr (fun c hc => by simp [hcf c hc])

lemma store_filter_self (store0 : List (Nat × Receiver)) (n0 : Nat)
    (hkeys : ∀ pr ∈ store0, pr.1 ≠ n0) :
    store0.filter (fun p => decide (p.1 ≠ n0)) = store0 :=
  List.filter_eq_self.mpr (fun pr hpr => by simp [hkeys pr hpr])


lemma map_disable_not_mem (l : List (Nat × Receiver)) (rid : Nat)
    (h : ∀ pr ∈ l, pr.1 ≠ rid) :
    l.map (fun (p : Nat × Receiver) => if p.1 = rid then
      (p.1, { p.2 with enabled := false, receiver := none }) else p) = l := by
  induction l with
  | nil => rfl
  | cons x xs ih =>
      simp [h x (List.mem_cons_self x xs), ih (fun pr hpr => h pr (List.mem_cons_of_mem x hpr))]


lemma filterMap_events_not_s (st : ChannelState) (s payload : Nat) (ids : List Nat)
    (hsf : ∀ pr ∈ st.store, pr.2.receiver ≠ some s) :
    ∀ e ∈ ids.filterMap (fun rid =>
        (match lookupRec st rid with
        | some r => if r.enabled then
            some { rid := rid, receiver := r.receiver, callback := r.callback,
                   payload := payload }
          else none
        | none => none : Option Event)), e.receiver ≠ some s := by
  intro e he
  rw [List.mem_filterMap] at he
  obtain ⟨rid, _, hf⟩ := he
  cases hl : lookupRec st rid with
  | none => rw [hl] at hf; simp at hf
  | some r =>
      rw [hl] at hf
      by_cases hr : r.enabled = true
      · simp only [hr, if_true] at hf
        obtain ⟨k, hk⟩ := lookupRec_some_mem st rid r hl
        have := hsf (k, r) hk
        cases hf
        simpa using this
      · simp [hr] at hf


set_option maxHeartbeats 4000000 in
/-- Claim C5.  On a single-thread channel at rest with no prior
subscription by s (no record references s, no back-link for s),
onReceive(s, cb) followed by disconnect(s) on the same thread is
observationally a round trip: isConnected and the enabled count are as
before, a subsequent send produces exactly the events it would have
produced on the original channel (none of them for s), and when the
channel is connected that send also returns the original state itself
(only the nextId allocator has advanced). -/
theorem C5_subscribe_disconnect_roundtrip
    (store0 : List (Nat × Receiver)) (cons0 : List (Nat × Nat)) (qs0 : List QueueData)
    (recs0 : List Nat) (n0 : Nat) (c0 : Int) (t s cb fb p : Nat) (mode : Mode)
    (hsf : ∀ pr ∈ store0, pr.2.receiver ≠ some s)
    (hcf : ∀ c ∈ cons0, c.1 ≠ s)
    (hkeys : ∀ pr ∈ store0, pr.1 < n0)
    (hids : ∀ rid ∈ recs0, rid < n0) :
    isConnected (disconnect1 fb
        (onReceive (singleTableState store0 n0 t recs0 qs0 cons0 c0) t (some s) cb mode) t s)
      = isConnected (singleTableState store0 n0 t recs0 qs0 cons0 c0) ∧
    (disconnect1 fb
        (onReceive (singleTableState store0 n0 t recs0 qs0 cons0 c0) t (some s) cb mode)
        t s).enabledReceiversCount = c0 ∧
    (send trivialProg (disconnect1 fb
        (onReceive (singleTableState store0 n0 t recs0 qs0 cons0 c0) t (some s) cb mode) t s)
        t SendMode.Auto p).2
      = (send trivialProg (singleTableState store0 n0 t recs0 qs0 cons0 c0)
          t SendMode.Auto p).2 ∧
    ((0 : Int) < c0 →
      (send trivialProg (disconnect1 fb
          (onReceive (singleTableState store0 n0 t recs0 qs0 cons0 c0) t (some s) cb mode) t s)
          t SendMode.Auto p).1
        = singleTableState store0 (n0 + 1) t recs0 qs0 cons0 c0) ∧
    ∀ e ∈ (send trivialProg (disconnect1 fb
        (onReceive (singleTableState store0 n0 t recs0 qs0 cons0 c0) t (some s) cb mode) t s)
        t SendMode.Auto p).2, e.receiver ≠ some s := by
  have hkeys' : ∀ pr ∈ store0, pr.1 ≠ n0 := fun pr hpr => Nat.ne_of_lt (hkeys pr hpr)
  have hids' : ∀ rid ∈ recs0, rid ≠ n0 := fun rid hrid => Nat.ne_of_lt (hids rid hrid)
  have hnotm : n0 ∉ recs0 := fun hmem => hids' n0 hmem rfl
  -- stage 1: the subscription creates a fresh staged record for s
  have h1 : onReceive (singleTableState store0 n0 t recs0 qs0 cons0 c0) t (some s) cb mode =
      { store := store0 ++ [(n0, { enabled := true, receiver := some s, callback := cb })],
        nextId := n0 + 1,
        threads := [{ threadId := t, receivers := recs0, pendingToAdd := [n0],
                      queues := qs0 }],
        connects := cons0 ++ [(s, t)], enabledReceiversCount := c0 + 1 } := by
    have hfind : ∀ stx : ChannelState, stx.store = store0 →
        findByAsyncable stx recs0 (some s) = none := fun stx hx =>
      findByAsyncable_none_of_storeFree stx s recs0 (hx ▸ hsf)
    have hany := connects_any_false cons0 s hcf
    have hnil : ∀ stx : ChannelState, findByAsyncable stx ([] : List Nat) (some s) = none :=
      fun stx => rfl
    simp [singleTableState, onReceive, addReceiver, ensureThread, hasThread, getThread,
          lookupExisting, asyncConnect, setThread, hfind, hany, hnil, List.find?, List.any]
  -- stage 2: the same-thread disconnect disables and nulls the fresh record
  have h2 : disconnect1 fb
      { store := store0 ++ [(n0, { enabled := true, receiver := some s, callback := cb })],
        nextId := n0 + 1,
        threads := [{ threadId := t, receivers := recs0, pendingToAdd := [n0],
                      queues := qs0 }],
        connects := cons0 ++ [(s, t)], enabledReceiversCount := c0 + 1 } t s =
      { store := store0 ++ [(n0, { enabled := false, receiver := none, callback := cb })],
        nextId := n0 + 1,
        threads := [{ threadId := t, receivers := recs0, pendingToAdd := [n0],
                      pendingToRemove := [n0], queues := qs0 }],
        connects := cons0, enabledReceiversCount := c0 } := by
    have hfc : (cons0 ++ [(s, t)]).find? (fun c => decide (c.1 = s)) = some (s, t) := by
      rw [List.find?_append, connects_find?_none cons0 s hcf]
      simp [List.find?]
    have hflt : (cons0 ++ [(s, t)]).filter (fun c => decide (c.1 ≠ s)) = cons0 := by
      rw [List.filter_append, connects_filter_self cons0 s hcf]
      simp [List.filter]
    have hfa : ∀ stx : ChannelState,
        stx.store = store0 ++ [(n0, { enabled := true, receiver := some s, callback := cb })] →
        findByAsyncable stx recs0 (some s) = none := fun stx hx =>
      findByAsyncable_append_none stx store0 n0 s _ recs0 hx hsf hids'
    have hlk : ∀ stx : ChannelState,
        stx.store = store0 ++ [(n0, { enabled := true, receiver := some s, callback := cb })] →
        lookupRec stx n0 =
          some { enabled := true, receiver := some s, callback := cb } := fun stx hx =>
      lookupRec_append_last stx store0 n0 _ hx hkeys'
    have hfp : ∀ stx : ChannelState,
        stx.store = store0 ++ [(n0, { enabled := true, receiver := some s, callback := cb })] →
        findByAsyncable stx [n0] (some s) = some n0 := by
      intro stx hx
      have hm : recMatches stx (some s) n0 = true := by
        unfold recMatches
        rw [hlk stx hx]
        simp
      unfold findByAsyncable
      simp [List.find?, hm]
    have hupd : (store0 ++
        ([(n0, { enabled := true, receiver := some s, callback := cb })] :
          List (Nat × Receiver))).map
          (fun (pr : Nat × Receiver) => if pr.1 = n0 then
            (pr.1, { pr.2 with enabled := false, receiver := none }) else pr) =
        store0 ++ [(n0, { enabled := false, receiver := none, callback := cb })] := by
      rw [List.map_append, map_disable_not_mem store0 n0 hkeys']
      simp
    simp [disconnect1, disconnect2, asyncConnectThread, asyncDisconnect,
          removeReceiverAndCount, removeReceiver, ensureThread, hasThread, getThread,
          lookupExisting, updateRec, setThread, hfc, hflt, hfa, hlk, hfp, hupd,
          List.find?, List.any]
    intro a b hab
    exact hcf (a, b) hab
  rw [h1, h2]
  by_cases hc0 : (0 : Int) < c0
  · -- the next send folds the staged removal in and equals the original send
    have hcont : (recs0 ++ [n0]).contains n0 = true := by simp
    have herase : (recs0 ++ [n0]).erase n0 = recs0 := by
      rw [List.erase_append_right [n0] hnotm]
      simp
    have h3 : send trivialProg
        { store := store0 ++ [(n0, { enabled := false, receiver := none, callback := cb })],
          nextId := n0 + 1,
          threads := [{ threadId := t, receivers := recs0, pendingToAdd := [n0],
                        pendingToRemove := [n0], queues := qs0 }],
          connects := cons0, enabledReceiversCount := c0 } t SendMode.Auto p =
        ({ store := store0, nextId := n0 + 1,
           threads := [{ threadId := t, receivers := recs0, queues := qs0 }],
           connects := cons0, enabledReceiversCount := c0 },
         (send trivialProg (singleTableState store0 n0 t recs0 qs0 cons0 c0)
           t SendMode.Auto p).2) := by
      simp [singleTableState, send, isConnected, hc0, sendAuto, receiversCallArgs, addPending,
            removePending, removePendingOne, callLoop_trivial, ensureThread, hasThread,
            getThread, setThread, delRec, lookupRec, hcont, herase,
            List.find?, List.any, List.filter]
      refine ⟨fun a b hab => hkeys' (a, b) hab, ?_⟩
      apply List.filterMap_congr
      intro rid hrid
      have hrid' : rid ≠ n0 := hids' rid hrid
      have hpred : (fun (a : Nat × Receiver) => !decide (a.1 = n0) && decide (a.1 = rid)) =
          (fun (pr : Nat × Receiver) => decide (pr.1 = rid)) := by
        funext a
        by_cases ha : a.1 = rid
        · simp [ha, hrid']
        · simp [ha]
      rw [hpred]
    have hsend0 : send trivialProg (singleTableState store0 n0 t recs0 qs0 cons0 c0)
        t SendMode.Auto p =
        (singleTableState store0 n0 t recs0 qs0 cons0 c0,
         recs0.filterMap (fun rid =>
          (match lookupRec (singleTableState store0 n0 t recs0 qs0 cons0 c0) rid with
          | some r => if r.enabled then
              some { rid := rid, receiver := r.receiver, callback := r.callback,
                     payload := p }
            else none
          | none => none : Option Event))) := by
      simp [singleTableState, send, isConnected, hc0, sendAuto, receiversCallArgs, addPending,
            removePending, callLoop_trivial, ensureThread, hasThread, getThread, setThread,
            List.find?, List.any, List.filter]
    refine ⟨by rfl, by rfl, by rw [h3], fun _ => by rw [h3]; rfl, ?_⟩
    rw [h3]
    intro e he
    rw [hsend0] at he
    exact filterMap_events_not_s (singleTableState store0 n0 t recs0 qs0 cons0 c0) s p recs0
      hsf e he
  · -- not connected: both sends are the silent no-op
    have hb : decide ((0 : Int) < c0) = false := decide_eq_false hc0
    refine ⟨rfl, rfl, ?_, fun hcc => absurd hcc hc0, ?_⟩
    · simp [send, isConnected, singleTableState, hb]
    · simp [send, isConnected, hb]

/-- Claim C5 (witness: a channel with one other enabled anonymous record,
subscriber 2 never subscribed). -/
theorem C5_subscribe_disconnect_roundtrip_witness :
    ((∀ pr ∈ [((0 : Nat), ({ enabled := true, receiver := none, callback := 5 } : Receiver))],
        pr.2.receiver ≠ some 2) ∧
     (∀ c ∈ ([] : List (Nat × Nat)), c.1 ≠ 2) ∧
     (∀ pr ∈ [((0 : Nat), ({ enabled := true, receiver := none, callback := 5 } : Receiver))],
        pr.1 < 1) ∧
     (∀ rid ∈ [(0 : Nat)], rid < 1)) ∧
    isConnected (disconnect1 9
        (onReceive (singleTableState [(0, { enabled := true, receiver := none, callback := 5 })]
          1 3 [0] [] [] 1) 3 (some 2) 7 Mode.AsyncSet) 3 2)
      = isConnected (singleTableState [(0, { enabled := true, receiver := none, callback := 5 })]
          1 3 [0] [] [] 1) := by
  refine ⟨⟨by decide, by decide, by decide, by decide⟩, ?_⟩
  exact (C5_subscribe_disconnect_roundtrip
    [(0, { enabled := true, receiver := none, callback := 5 })] [] [] [0] 1 1 3 2 7 9 11
    Mode.AsyncSet (by decide) (by decide) (by decide) (by decide)).1


set_option maxHeartbeats 4000000 in
/-- Claim C6.  On a channel where subscriber s is not connected (no record
references s and s holds no back-link — the state after a completed
disconnect), calling disconnect(s) again changes no observable state
whatever thread the stale registration lookup resolves to: the heap, the
enabled count, the back-links and the table contents are all unchanged
(when the lookup resolves to the calling thread the state is unchanged
outright), and even pumping the self-disconnect message the foreign-thread
path may have queued invokes nothing and changes neither heap nor count. -/
theorem C6_disconnect_idempotent
    (store0 : List (Nat × Receiver)) (cons0 : List (Nat × Nat))
    (recs0 pa0 pr0 : List Nat) (n0 : Nat) (c0 : Int) (curTh s fallback : Nat)
    (hsf : ∀ pr ∈ store0, pr.2.receiver ≠ some s)
    (hcf : ∀ c ∈ cons0, c.1 ≠ s) :
    let st : ChannelState :=
      { store := store0, nextId := n0,
        threads := [{ threadId := curTh, receivers := recs0, pendingToAdd := pa0,
                      pendingToRemove := pr0 }],
        connects := cons0, enabledReceiversCount := c0 }
    let st2 := disconnect1 fallback st curTh s
    st2.store = store0 ∧
    st2.enabledReceiversCount = c0 ∧
    st2.connects = cons0 ∧
    (getThread st2 curTh).receivers = recs0 ∧
    (getThread st2 curTh).pendingToAdd = pa0 ∧
    (getThread st2 curTh).pendingToRemove = pr0 ∧
    (fallback = curTh → st2 = st) ∧
    (pumpQueue trivialProg st2 curTh fallback).1.store = store0 ∧
    (pumpQueue trivialProg st2 curTh fallback).1.enabledReceiversCount = c0 ∧
    (pumpQueue trivialProg st2 curTh fallback).2 = [] := by
  dsimp only
  have hctn := connects_find?_none cons0 s hcf
  have hflt := connects_filter_self cons0 s hcf
  have hfind : ∀ stx : ChannelState, stx.store = store0 →
      ∀ ids, findByAsyncable stx ids (some s) = none := fun stx hx ids =>
    findByAsyncable_none_of_storeFree stx s ids (hx ▸ hsf)
  by_cases hfb : fallback = curTh
  · subst hfb
    have h2 : disconnect1 fallback
        { store := store0, nextId := n0,
          threads := [{ threadId := fallback, receivers := recs0, pendingToAdd := pa0,
                        pendingToRemove := pr0 }],
          connects := cons0, enabledReceiversCount := c0 } fallback s =
        { store := store0, nextId := n0,
          threads := [{ threadId := fallback, receivers := recs0, pendingToAdd := pa0,
                        pendingToRemove := pr0 }],
          connects := cons0, enabledReceiversCount := c0 } := by
      simp [disconnect1, disconnect2, asyncConnectThread, asyncDisconnect,
            removeReceiverAndCount, removeReceiver, ensureThread, hasThread, getThread,
            lookupExisting, setThread, hctn, hflt, hfind, List.find?, List.any]
      intro a b hab
      exact hcf (a, b) hab
    rw [h2]
    refine ⟨rfl, rfl, rfl, ?_, ?_, ?_, fun _ => rfl, ?_, ?_, ?_⟩ <;>
      simp [getThread, pumpQueue, List.find?]
  · have h2 : disconnect1 fallback
        { store := store0, nextId := n0,
          threads := [{ threadId := curTh, receivers := recs0, pendingToAdd := pa0,
                        pendingToRemove := pr0 }],
          connects := cons0, enabledReceiversCount := c0 } curTh s =
        { store := store0, nextId := n0,
          threads := [{ threadId := curTh, receivers := recs0, pendingToAdd := pa0,
                        pendingToRemove := pr0,
                        queues := [{ receiveTh := fallback, msgs := [CallMsg.selfDisconnect s] }] }],
          connects := cons0, enabledReceiversCount := c0 } := by
      simp [disconnect1, disconnect2, asyncConnectThread, asyncDisconnect,
            removeReceiverAndCount, removeReceiver, ensureThread, hasThread, getThread,
            lookupExisting, setThread, sendToQueue, hctn, hflt, hfind, hfb,
            List.find?, List.any]
      intro a b hab
      exact hcf (a, b) hab
    rw [h2]
    have hcf2 : ¬(curTh = fallback) := fun hx => hfb hx.symm
    refine ⟨rfl, rfl, rfl, by simp [getThread, List.find?], by simp [getThread, List.find?],
            by simp [getThread, List.find?], fun hcc => absurd hcc hfb, ?_, ?_, ?_⟩ <;>
      simp [pumpQueue, getThread, setThread, ensureThread, hasThread, processMsgs,
            receiversCallMsg, addPending, removePending, callLoop, hcf2,
            List.find?, List.any]

/-- Claim C6 (witness: the typical state after a first same-thread
disconnect of subscriber 1 — a disabled, nulled record staged for
removal). -/
theorem C6_disconnect_idempotent_witness :
    ((∀ pr ∈ [((0 : Nat), ({ enabled := false, receiver := none, callback := 10 } : Receiver))],
        pr.2.receiver ≠ some 1) ∧
     (∀ c ∈ ([] : List (Nat × Nat)), c.1 ≠ 1)) ∧
    (disconnect1 7
      { store := [(0, { enabled := false, receiver := none, callback := 10 })], nextId := 1,
        threads := [{ threadId := 0, receivers := [0], pendingToRemove := [0] }],
        connects := [], enabledReceiversCount := 0 } 0 1).store
      = [(0, { enabled := false, receiver := none, callback := 10 })] :=
  ⟨⟨by decide, by decide⟩,
   (C6_disconnect_idempotent [(0, { enabled := false, receiver := none, callback := 10 })]
      [] [0] [] [0] 1 0 0 1 7 (by decide) (by decide)).1⟩


/-! ## Preservation of the C10 invariant (disabled records are nulled) -/

lemma asyncConnect_store (st : ChannelState) (a tid : Nat) :
    (asyncConnect st a tid).store = st.store := by
  unfold asyncConnect; split <;> rfl

lemma addPending_store (st : ChannelState) (tid : Nat) :
    (addPending st tid).store = st.store := by
  unfold addPending
  dsimp only
  split <;> rfl

lemma dn_of_store_eq {st st' : ChannelState} (h : st'.store = st.store)
    (hd : disabledNulled st) : disabledNulled st' := by
  intro p hp hpe
  exact hd p (h ▸ hp) hpe

lemma dn_ensureThread {st : ChannelState} (tid : Nat) (h : disabledNulled st) :
    disabledNulled (ensureThread st tid) :=
  dn_of_store_eq (ensureThread_store st tid) h

lemma dn_setThread {st : ChannelState} (tid : Nat) (td : ThreadData)
    (h : disabledNulled st) : disabledNulled (setThread st tid td) :=
  dn_of_store_eq (setThread_store st tid td) h

lemma dn_sendToQueue {st : ChannelState} (a b : Nat) (m : CallMsg)
    (h : disabledNulled st) : disabledNulled (sendToQueue st a b m) :=
  dn_of_store_eq (sendToQueue_store st a b m) h

lemma dn_addPending {st : ChannelState} (tid : Nat) (h : disabledNulled st) :
    disabledNulled (addPending st tid) :=
  dn_of_store_eq (addPending_store st tid) h

lemma dn_delRec {st : ChannelState} (rid : Nat) (h : disabledNulled st) :
    disabledNulled (delRec st rid) := by
  intro p hp hpe
  exact h p (List.mem_of_mem_filter hp) hpe

lemma dn_updateRec_disable {st : ChannelState} (rid : Nat) (h : disabledNulled st) :
    disabledNulled (updateRec st rid (fun x => { x with enabled := false, receiver := none })) := by
  intro p hp hpe
  unfold updateRec at hp
  simp only [List.mem_map] at hp
  obtain ⟨q, hq, hfq⟩ := hp
  by_cases hq1 : q.1 = rid
  · rw [if_pos hq1] at hfq
    rw [← hfq]
  · rw [if_neg hq1] at hfq
    rw [← hfq] at hpe ⊢
    exact h q hq hpe

lemma dn_updateRec_callback {st : ChannelState} (rid f : Nat) (h : disabledNulled st) :
    disabledNulled (updateRec st rid (fun rc => { rc with callback := f })) := by
  intro p hp hpe
  unfold updateRec at hp
  simp only [List.mem_map] at hp
  obtain ⟨q, hq, hfq⟩ := hp
  by_cases hq1 : q.1 = rid
  · rw [if_pos hq1] at hfq
    rw [← hfq] at hpe ⊢
    exact h q hq hpe
  · rw [if_neg hq1] at hfq
    rw [← hfq] at hpe ⊢
    exact h q hq hpe

lemma dn_addReceiver {st : ChannelState} (tid : Nat) (a : Option Nat) (f : Nat)
    (mode : Mode) (h : disabledNulled st) :
    disabledNulled (addReceiver st tid a f mode).1 := by
  unfold addReceiver
  dsimp only
  split
  · split
    · exact dn_ensureThread tid h
    · exact dn_updateRec_callback _ f (dn_ensureThread tid h)
  · apply dn_setThread
    have hmid : disabledNulled
        { ensureThread st tid with
          store := (ensureThread st tid).store ++
            [((ensureThread st tid).nextId,
              { enabled := true, receiver := a, callback := f })],
          nextId := (ensureThread st tid).nextId + 1 } := by
      intro p hp hpe
      rcases List.mem_append.mp hp with hpl | hpr
      · exact dn_ensureThread tid h p hpl hpe
      · simp only [List.mem_singleton] at hpr
        rw [hpr] at hpe
        simp at hpe
    cases a with
    | none => exact hmid
    | some av => exact dn_of_store_eq (asyncConnect_store _ av tid) hmid

lemma dn_onReceive {st : ChannelState} (tid : Nat) (a : Option Nat) (f : Nat)
    (mode : Mode) (h : disabledNulled st) :
    disabledNulled (onReceive st tid a f mode) := by
  unfold onReceive
  dsimp only
  split
  · exact dn_addReceiver tid a f mode h
  · exact dn_addReceiver tid a f mode h

lemma dn_removeReceiver {st : ChannelState} (tid a : Nat) (h : disabledNulled st) :
    disabledNulled (removeReceiver st tid a).1 := by
  unfold removeReceiver
  dsimp only
  split
  · exact dn_ensureThread tid h
  · split
    · exact dn_setThread _ _ (dn_updateRec_disable _ (dn_ensureThread tid h))
    · exact dn_ensureThread tid h

lemma dn_removeReceiverAndCount {st : ChannelState} (tid a : Nat) (h : disabledNulled st) :
    disabledNulled (removeReceiverAndCount st tid a) := by
  unfold removeReceiverAndCount
  dsimp only
  split
  · exact dn_removeReceiver tid a h
  · exact dn_removeReceiver tid a h

lemma dn_disconnect2 {st : ChannelState} (curTh a connectThId : Nat)
    (h : disabledNulled st) : disabledNulled (disconnect2 st curTh a connectThId) := by
  unfold disconnect2
  dsimp only
  have hdis : disabledNulled (asyncDisconnect st a) :=
    dn_of_store_eq (asyncDisconnect_store st a) h
  split
  · exact dn_removeReceiverAndCount curTh a hdis
  · exact dn_sendToQueue curTh connectThId _ hdis

lemma dn_disconnect1 {st : ChannelState} (fb curTh a : Nat) (h : disabledNulled st) :
    disabledNulled (disconnect1 fb st curTh a) :=
  dn_disconnect2 curTh a _ h

lemma dn_runAction {st : ChannelState} (curTh : Nat) (act : Action)
    (h : disabledNulled st) : disabledNulled (runAction curTh st act) := by
  cases act with
  | actReceive a f mode => exact dn_onReceive curTh a f mode h
  | actDisconnect fb a => exact dn_disconnect1 fb curTh a h

lemma dn_foldl_runAction (curTh : Nat) (acts : List Action) :
    ∀ st : ChannelState, disabledNulled st →
      disabledNulled (acts.foldl (runAction curTh) st) := by
  induction acts with
  | nil => intro st h; exact h
  | cons a rest ih => intro st h; exact ih _ (dn_runAction curTh a h)

lemma dn_callLoop (prog : Prog) (curTh : Nat) (m : CallMsg) :
    ∀ (ids : List Nat) (st : ChannelState), disabledNulled st →
      disabledNulled (callLoop prog curTh m ids st).1 := by
  intro ids
  induction ids with
  | nil => intro st h; exact h
  | cons rid rest ih =>
      intro st h
      cases m with
      | call payload =>
          simp only [callLoop]
          split
          · exact ih _ (dn_foldl_runAction curTh _ st h)
          · exact ih _ h
      | selfDisconnect a =>
          simp only [callLoop]
          split
          · split
            · exact ih _ (dn_removeReceiverAndCount curTh _ h)
            · exact ih _ h
          · exact ih _ h

lemma dn_removePendingOne {st : ChannelState} (tid rid : Nat) (h : disabledNulled st) :
    disabledNulled (removePendingOne st tid rid) := by
  unfold removePendingOne
  dsimp only
  split
  · exact dn_setThread _ _ (dn_delRec rid h)
  · exact h

lemma dn_foldl_removePendingOne (tid : Nat) (l : List Nat) :
    ∀ st : ChannelState, disabledNulled st →
      disabledNulled (l.foldl (fun s rid => removePendingOne s tid rid) st) := by
  induction l with
  | nil => intro st h; exact h
  | cons rid rest ih => intro st h; exact ih _ (dn_removePendingOne tid rid h)

lemma dn_removePending {st : ChannelState} (tid : Nat) (h : disabledNulled st) :
    disabledNulled (removePending st tid) := by
  unfold removePending
  dsimp only
  split
  · exact h
  · exact dn_setThread _ _ (dn_foldl_removePendingOne tid _ st h)

lemma dn_receiversCallMsg {st : ChannelState} (prog : Prog) (curTh : Nat) (m : CallMsg)
    (h : disabledNulled st) : disabledNulled (receiversCallMsg prog curTh m st).1 := by
  unfold receiversCallMsg
  dsimp only
  exact dn_addPending curTh (dn_removePending curTh
    (dn_callLoop prog curTh m _ _ (dn_removePending curTh (dn_addPending curTh h))))

lemma dn_receiversCallArgs {st : ChannelState} (prog : Prog) (curTh payload : Nat)
    (h : disabledNulled st) : disabledNulled (receiversCallArgs prog curTh payload st).1 := by
  unfold receiversCallArgs
  dsimp only
  exact dn_addPending curTh (dn_removePending curTh
    (dn_callLoop prog curTh _ _ _ (dn_removePending curTh (dn_addPending curTh h))))

lemma dn_foldl_sendToQueue (curTh : Nat) (m : CallMsg) (ts : List Nat) :
    ∀ st : ChannelState, disabledNulled st →
      disabledNulled (ts.foldl (fun s x => sendToQueue s curTh x m) st) := by
  induction ts with
  | nil => intro st h; exact h
  | cons x rest ih => intro st h; exact ih _ (dn_sendToQueue curTh x m h)

lemma dn_sendAuto {st : ChannelState} (prog : Prog) (curTh payload : Nat)
    (h : disabledNulled st) : disabledNulled (sendAuto prog st curTh payload).1 := by
  unfold sendAuto
  dsimp only
  exact dn_foldl_sendToQueue curTh _ _ _
    (dn_receiversCallArgs prog curTh payload (dn_ensureThread curTh h))

lemma dn_sendQueue {st : ChannelState} (curTh payload : Nat) (h : disabledNulled st) :
    disabledNulled (sendQueue st curTh payload).1 := by
  unfold sendQueue
  dsimp only
  exact dn_foldl_sendToQueue curTh _ _ _ (dn_ensureThread curTh h)

lemma dn_send {st : ChannelState} (prog : Prog) (curTh : Nat) (mode : SendMode)
    (payload : Nat) (h : disabledNulled st) :
    disabledNulled (send prog st curTh mode payload).1 := by
  unfold send
  split
  · cases mode with
    | Auto => exact dn_sendAuto prog curTh payload h
    | Queue => exact dn_sendQueue curTh payload h
  · exact h

lemma dn_processMsgs_aux (prog : Prog) (recvTh : Nat) (msgs : List CallMsg) :
    ∀ acc : ChannelState × List Event, disabledNulled acc.1 →
      disabledNulled (msgs.foldl (fun acc m =>
        let p := receiversCallMsg prog recvTh m acc.1
        (p.1, acc.2 ++ p.2)) acc).1 := by
  induction msgs with
  | nil => intro acc h; exact h
  | cons m rest ih =>
      intro acc h
      exact ih _ (dn_receiversCallMsg prog recvTh m h)

lemma dn_pumpQueue {st : ChannelState} (prog : Prog) (sendTh recvTh : Nat)
    (h : disabledNulled st) : disabledNulled (pumpQueue prog st sendTh recvTh).1 := by
  unfold pumpQueue
  dsimp only
  split
  · exact h
  · unfold processMsgs
    exact dn_processMsgs_aux prog recvTh _ _
      (dn_ensureThread recvTh (dn_setThread _ _ h))

lemma dn_runOp (prog : Prog) (op : TopOp) {st : ChannelState} (h : disabledNulled st) :
    disabledNulled (runOp prog st op) := by
  cases op with
  | opReceive tid a f mode => exact dn_onReceive tid a f mode h
  | opDisconnect2 c a th => exact dn_disconnect2 c a th h
  | opDisconnect1 fb c a => exact dn_disconnect1 fb c a h
  | opSend c m p => exact dn_send prog c m p h
  | opPump s r => exact dn_pumpQueue prog s r h

lemma dn_runOps (prog : Prog) (ops : List TopOp) : disabledNulled (runOps prog ops) := by
  unfold runOps
  have : ∀ st : ChannelState, disabledNulled st →
      disabledNulled (ops.foldl (runOp prog) st) := by
    induction ops with
    | nil => intro st h; exact h
    | cons op rest ih => intro st h; exact ih _ (dn_runOp prog op h)
  exact this {} (by intro p hp hpe; simp at hp)


/-- Claim C10.  First conjunct: in every state reachable by any sequence
of channel operations (under any callback program), a record whose
enabled flag is false has a nulled subscriber pointer — removeReceiver is
the only place the flag is cleared and it nulls the pointer in the same
step.  Second conjunct: consequently findByAsyncable keyed on a non-null
subscriber only ever returns records that are still enabled (a disabled
record can never match).  Third conjunct: when the lookup misses (as it
does for a subscriber whose record was disabled by a disconnect),
addReceiver reports a new binding and appends a fresh enabled record
rather than reviving the disabled one. -/
theorem C10_disabled_records_nulled :
    (∀ (prog : Prog) (ops : List TopOp), disabledNulled (runOps prog ops)) ∧
    (∀ st : ChannelState, disabledNulled st → ∀ (a : Nat) (ids : List Nat) (rid : Nat),
      findByAsyncable st ids (some a) = some rid →
      ∃ r, lookupRec st rid = some r ∧ r.enabled = true ∧ r.receiver = some a) ∧
    (∀ (st : ChannelState) (tid s f : Nat) (mode : Mode),
      lookupExisting (ensureThread st tid) tid (some s) = none →
      (addReceiver st tid (some s) f mode).2 = true ∧
      (addReceiver st tid (some s) f mode).1.store =
        (ensureThread st tid).store ++
          [((ensureThread st tid).nextId,
            { enabled := true, receiver := some s, callback := f })]) := by
  refine ⟨fun prog ops => dn_runOps prog ops, ?_, ?_⟩
  · intro st hd a ids rid hfind
    have hmatch : recMatches st (some a) rid = true := List.find?_some hfind
    unfold recMatches at hmatch
    cases hl : lookupRec st rid with
    | none => rw [hl] at hmatch; simp at hmatch
    | some r =>
        rw [hl] at hmatch
        simp only [decide_eq_true_eq] at hmatch
        refine ⟨r, rfl, ?_, hmatch⟩
        cases hr : r.enabled with
        | true => rfl
        | false =>
            obtain ⟨k, hk⟩ := lookupRec_some_mem st rid r hl
            have := hd (k, r) hk hr
            rw [hmatch] at this
            exact absurd this (by simp)
  · intro st tid s f mode hnone
    constructor
    · simp [addReceiver, hnone]
    · simp [addReceiver, hnone, setThread_store, asyncConnect_store]

/-- Claim C10 (witness: the invariant at a reachable state; an enabled
match for subscriber 1; and a fresh insert on an empty channel). -/
theorem C10_disabled_records_nulled_witness :
    disabledNulled (runOps trivialProg
      [TopOp.opReceive 0 (some 1) 5 Mode.SetOnce, TopOp.opDisconnect1 9 0 1]) ∧
    (∃ r, lookupRec (oneSubscriber 1 10 Mode.AsyncSet 0) 0 = some r ∧
      r.enabled = true ∧ r.receiver = some 1) ∧
    (addReceiver {} 0 (some 1) 5 Mode.SetOnce).2 = true :=
  ⟨C10_disabled_records_nulled.1 trivialProg
      [TopOp.opReceive 0 (some 1) 5 Mode.SetOnce, TopOp.opDisconnect1 9 0 1],
   C10_disabled_records_nulled.2.1 (oneSubscriber 1 10 Mode.AsyncSet 0)
      (by unfold disabledNulled; decide) 1 [0] 0 (by decide),
   (C10_disabled_records_nulled.2.2 {} 0 1 5 Mode.SetOnce (by decide)).1⟩


end KorsAsync
